import Mathlib

/-
  Verification development for the UDP-to-MQTT gateway (src/main.cpp).

  The program is embedded shallowly:
  - the configuration-file parser AppOptions::parseConfFile becomes a pure
    function over the list of file lines, returning Except on the exceptions
    the C++ code throws (runtime_error for bad line format or bad enum value,
    std::invalid_argument from std::stoi);
  - the end-of-parse validation block becomes a list of the checks that fire;
  - the startup sequence of main becomes a function from the raw file lines
    to an outcome (exit before any socket is opened, or enter the runtime
    with the parsed options);
  - the forward loop becomes a step function from the receive buffer and one
    receive event to the MQTT publish call it issues, iterated over a finite
    trace of receive events paired with the waitForCompletion return codes
    the environment supplies.
-/

namespace UdpMqttGw

/-- Buffer capacity, UDP_BUFFER_SIZE in main.cpp. -/
def UDP_BUFFER_SIZE : Nat := 2048

/-- Paho MQTT protocol version constants (MQTTClient.h). -/
def MQTTVERSION_DEFAULT : Int := 0

def MQTTVERSION_3_1 : Int := 3

def MQTTVERSION_3_1_1 : Int := 4

def MQTTVERSION_5 : Int := 5

/-- Paho MQTT SSL version constants (MQTTClient.h). -/
def MQTT_SSL_VERSION_DEFAULT : Int := 0

def MQTT_SSL_VERSION_TLS_1_0 : Int := 1

def MQTT_SSL_VERSION_TLS_1_1 : Int := 2

def MQTT_SSL_VERSION_TLS_1_2 : Int := 3

/-- Mirror of the AppOptions struct fields filled by the config file
    (main.cpp lines 50-70), with the same defaults. -/
structure AppOptions where
  inputUdpPort : Int := 0
  mqttUrl : String := ""
  mqttTopic : String := ""
  mqttClientID : String := ""
  mqttUsername : String := ""
  mqttPassword : String := ""
  mqttVersion : Int := MQTTVERSION_DEFAULT
  mqttVersionStr : String := "Default"
  mqttQosLevel : Int := 0
  mqttKeepAliveInterval : Int := 20
  mqttRetryInterval : Int := 1000
  mqttConnectionTimeout : Int := 1000
  mqttSslEnableServerCertAuth : Int := 1
  mqttSslVersion : Int := MQTT_SSL_VERSION_TLS_1_2
  mqttSslVersionStr : String := "1.2"
  mqttSslVerify : Int := 0
  mqttSslTrustStore : String := ""
  mqttSslKeyStore : String := ""
  mqttSslPrivateKey : String := ""
  mqttSslPrivateKeyPasswd : String := ""
  deriving DecidableEq, Repr

/-- Exceptions thrown inside parseConfFile, together with the diagnostic the
    code writes to stderr at the throw site.  A line without a space throws
    runtime_error after printing the line number; a bad enum value throws
    runtime_error after printing the key name; a std::stoi failure throws
    std::invalid_argument, which carries neither the key nor the line. -/
inductive ConfError where
  | badLineFormat (lineNum : Nat)
  | invalidEnumValue (key : String)
  | invalidArgument
  deriving DecidableEq, Repr

/-- Which end-of-parse checks fire (main.cpp lines 215-235).  Each entry
    models one of the stderr messages naming the field, the spec calls the
    first kind MissingRequiredField and the second InconsistentCredentials;
    parseConfFile returns false exactly when this list is nonempty. -/
inductive ValidationIssue where
  | missingRequiredField (field : String)
  | inconsistentCredentials
  deriving DecidableEq, Repr

instance {ε α : Type} [DecidableEq ε] [DecidableEq α] : DecidableEq (Except ε α) := fun a b =>
  match a, b with
  | .error e, .error f =>
      if h : e = f then .isTrue (by rw [h]) else .isFalse (by intro c; cases c; exact h rfl)
  | .error _, .ok _ => .isFalse (by intro c; cases c)
  | .ok _, .error _ => .isFalse (by intro c; cases c)
  | .ok x, .ok y =>
      if h : x = y then .isTrue (by rw [h]) else .isFalse (by intro c; cases c; exact h rfl)

/-- Whitespace characters stripped by the trim helper (space and tab). -/
def isTrimWsp (c : Char) : Bool := c = ' ' || c = '\t'

/-- AppOptions::trim, strip leading and trailing spaces and tabs. -/
def trim (s : List Char) : List Char :=
  ((s.dropWhile isTrimWsp).reverse.dropWhile isTrimWsp).reverse

/-- AppOptions::trimComment, keep everything before the first hash mark. -/
def trimComment (s : List Char) : List Char :=
  s.takeWhile (fun c => c ≠ '#')

/-- Whitespace skipped by std::stoi (C isspace). -/
def isCSpace (c : Char) : Bool :=
  c = ' ' || c = '\t' || c = '\n' || c = '\x0b' || c = '\x0c' || c = '\r'

/-- Value of a digit list read in base 10. -/
def digitsToNat (ds : List Char) : Nat :=
  ds.foldl (fun a c => a * 10 + (c.toNat - 48)) 0

/-- Model of std::stoi on the value part of a config line: skip leading
    whitespace, read an optional sign and then a maximal nonempty run of
    digits, ignoring any trailing characters; none models the
    std::invalid_argument throw when no digits are found.  (The out_of_range
    overflow throw of stoi is out of scope, no claim depends on it.) -/
def stoiOpt (s : String) : Option Int :=
  let t := s.toList.dropWhile isCSpace
  match t with
  | '+' :: rest =>
      let ds := rest.takeWhile (fun c => c.isDigit)
      if ds.isEmpty then none else some (Int.ofNat (digitsToNat ds))
  | '-' :: rest =>
      let ds := rest.takeWhile (fun c => c.isDigit)
      if ds.isEmpty then none else some (-(Int.ofNat (digitsToNat ds)))
  | rest =>
      let ds := rest.takeWhile (fun c => c.isDigit)
      if ds.isEmpty then none else some (Int.ofNat (digitsToNat ds))

/-- The MqttVersion enum mapping (main.cpp lines 165-176). -/
def parseMqttVersion (val : String) : Option Int :=
  if val = "default" then some MQTTVERSION_DEFAULT
  else if val = "3.1" then some MQTTVERSION_3_1
  else if val = "3.1.1" then some MQTTVERSION_3_1_1
  else if val = "5" then some MQTTVERSION_5
  else none

/-- The MqttSslVersion enum mapping (main.cpp lines 190-201): note that the
    source maps "1.1" and "1.2" to MQTT_SSL_VERSION_TLS_1_0 as well. -/
def parseSslVersion (val : String) : Option Int :=
  if val = "default" then some MQTT_SSL_VERSION_DEFAULT
  else if val = "1.0" then some MQTT_SSL_VERSION_TLS_1_0
  else if val = "1.1" then some MQTT_SSL_VERSION_TLS_1_0
  else if val = "1.2" then some MQTT_SSL_VERSION_TLS_1_0
  else none

/-- One dispatch of the key/value chain of parseConfFile
    (main.cpp lines 150-212); unrecognized keys are silently ignored. -/
def interpretLine (key val : String) (o : AppOptions) : Except ConfError AppOptions :=
  if key = "InputUdpPort" then
    match stoiOpt val with
    | some n => .ok { o with inputUdpPort := n }
    | none => .error .invalidArgument
  else if key = "MqttUrl" then .ok { o with mqttUrl := val }
  else if key = "MqttTopic" then .ok { o with mqttTopic := val }
  else if key = "MqttClientID" then .ok { o with mqttClientID := val }
  else if key = "MqttUsername" then .ok { o with mqttUsername := val }
  else if key = "MqttPassword" then .ok { o with mqttPassword := val }
  else if key = "MqttVersion" then
    match parseMqttVersion val with
    | some v => .ok { o with mqttVersionStr := val, mqttVersion := v }
    | none => .error (.invalidEnumValue ("MqttVersion"))
  else if key = "MqttQosLevel" then
    match stoiOpt val with
    | some n => .ok { o with mqttQosLevel := n }
    | none => .error .invalidArgument
  else if key = "MqttKeepAliveInterval" then
    match stoiOpt val with
    | some n => .ok { o with mqttKeepAliveInterval := n }
    | none => .error .invalidArgument
  else if key = "MqttRetryInterval" then
    match stoiOpt val with
    | some n => .ok { o with mqttRetryInterval := n }
    | none => .error .invalidArgument
  else if key = "MqttConnectionTimeout" then
    match stoiOpt val with
    | some n => .ok { o with mqttConnectionTimeout := n }
    | none => .error .invalidArgument
  else if key = "MqttSslEnableServerCertAuth" then
    match stoiOpt val with
    | some n => .ok { o with mqttSslEnableServerCertAuth := n }
    | none => .error .invalidArgument
  else if key = "MqttSslVersion" then
    match parseSslVersion val with
    | some v => .ok { o with mqttSslVersionStr := val, mqttSslVersion := v }
    | none => .error (.invalidEnumValue ("MqttSslVersion"))
  else if key = "MqttSslVerify" then
    match stoiOpt val with
    | some n => .ok { o with mqttSslVerify := n }
    | none => .error .invalidArgument
  else if key = "MqttSslTrustStore" then .ok { o with mqttSslTrustStore := val }
  else if key = "MqttSslKeyStore" then .ok { o with mqttSslKeyStore := val }
  else if key = "MqttSslPrivateKey" then .ok { o with mqttSslPrivateKey := val }
  else if key = "MqttSslPrivateKeyPasswd" then .ok { o with mqttSslPrivateKeyPasswd := val }
  else .ok o

/-- The line loop of parseConfFile (main.cpp lines 132-213): count the line,
    strip the comment, trim, skip an empty line, split at the first space
    (throwing on a line without one), and dispatch on the key. -/
def parseLines (o : AppOptions) : List (List Char) → Nat → Except ConfError AppOptions
  | [], _ => .ok o
  | l :: rest, lineNum =>
      let n := lineNum + 1
      let cl := trim (trimComment l)
      if cl.isEmpty then parseLines o rest n
      else if cl.contains ' ' then
        let key := String.mk (cl.takeWhile (fun c => c ≠ ' '))
        let val := String.mk ((cl.dropWhile (fun c => c ≠ ' ')).tail)
        match interpretLine key val o with
        | .ok o2 => parseLines o2 rest n
        | .error e => .error e
      else .error (.badLineFormat n)

/-- The end-of-parse validation block (main.cpp lines 215-235), as the list
    of checks that fire; the returned bool of the C++ function is true
    exactly when this list is empty. -/
def configIssues (o : AppOptions) : List ValidationIssue :=
  (if o.mqttUrl = "" then [.missingRequiredField ("MqttUrl")] else []) ++
  (if o.mqttTopic = "" then [.missingRequiredField ("MqttTopic")] else []) ++
  (if o.mqttClientID = "" then [.missingRequiredField ("MqttClientID")] else []) ++
  (if o.mqttUsername ≠ "" && o.mqttPassword = "" then [.inconsistentCredentials] else [])

/-- AppOptions::parseConfFile on the list of the file lines: run the line
    loop from the defaults, then the validation block. -/
def parseConfFile (lines : List String) : Except ConfError (List ValidationIssue × AppOptions) :=
  match parseLines {} (lines.map String.toList) 0 with
  | .ok o => .ok (configIssues o, o)
  | .error e => .error e

/-- Outcome of the startup sequence of main (lines 330-360): a parse
    exception or a failed validation exits EXIT_FAILURE before the
    socket(AF_INET, SOCK_DGRAM, 0) call, so no socket is ever opened on
    the first two outcomes; otherwise the process proceeds to open and
    bind the socket and run the forward loop with the parsed options. -/
inductive StartupOutcome where
  | exitConfigException
  | exitInvalidConfig
  | enterRuntime (o : AppOptions)
  deriving DecidableEq, Repr

/-- The startup control flow of main around parseConfFile
    (main.cpp lines 330-345). -/
def mainStartup (lines : List String) : StartupOutcome :=
  match parseConfFile lines with
  | .error _ => .exitConfigException
  | .ok (issues, o) => if issues.isEmpty then .enterRuntime o else .exitInvalidConfig

/-- True when startup reached the runtime components (socket and loop). -/
def reachesRuntime : StartupOutcome → Bool
  | .enterRuntime _ => true
  | _ => false

/-- QoS level carried into the runtime, when it is reached. -/
def outcomeQos : StartupOutcome → Option Int
  | .enterRuntime o => some o.mqttQosLevel
  | _ => none

/-- UDP port carried into the bind call, when the runtime is reached. -/
def outcomePort : StartupOutcome → Option Int
  | .enterRuntime o => some o.inputUdpPort
  | _ => none

/-- Mirror of MQTTClient_connectOptions with the fields main touches, at the
    defaults of MQTTClient_connectOptions_initializer (keepAliveInterval 60,
    cleansession 1, connectTimeout 30, retryInterval 0, username and
    password NULL, MQTTVersion MQTTVERSION_DEFAULT). -/
structure ConnectOptions where
  keepAliveInterval : Int := 60
  cleansession : Int := 1
  connectTimeout : Int := 30
  retryInterval : Int := 0
  username : Option String := none
  password : Option String := none
  mqttVersion : Int := MQTTVERSION_DEFAULT
  deriving DecidableEq, Repr

/-- The MQTT connect setup of main (lines 386-394): the username and the
    password pointers are set only when the username is nonempty. -/
def mkConnOpts (o : AppOptions) : ConnectOptions :=
  let base : ConnectOptions := {}
  { base with
    keepAliveInterval := o.mqttKeepAliveInterval
    cleansession := 1
    connectTimeout := o.mqttConnectionTimeout
    retryInterval := o.mqttRetryInterval
    username := if o.mqttUsername ≠ "" then some o.mqttUsername else base.username
    password := if o.mqttUsername ≠ "" then some o.mqttPassword else base.password
    mqttVersion := o.mqttVersion }

/-- Result of one recvfrom call in the loop: a datagram with its bytes, or
    a failed call returning -1. -/
inductive RecvResult where
  | ok (d : List Nat)
  | err
  deriving DecidableEq, Repr

/-- One MQTTClient_publishMessage call as issued by the loop body
    (main.cpp lines 460-467): the topic argument and the MQTTClient_message
    fields payload (the whole 2048-byte buffer the pointer refers to),
    payloadlen (the unchecked recvfrom return value), qos and retained. -/
structure PublishCall where
  topic : String
  payload : List Nat
  payloadlen : Int
  qos : Int
  retained : Int
  deriving DecidableEq, Repr

/-- Effect of recvfrom on the buffer (main.cpp lines 449-453): a datagram is
    written truncated to the buffer capacity and its written length is
    returned; a failed call leaves the buffer and returns -1. -/
def recvfromModel (buf : List Nat) : RecvResult → List Nat × Int
  | .ok d =>
      let w := d.take UDP_BUFFER_SIZE
      (w ++ buf.drop w.length, Int.ofNat w.length)
  | .err => (buf, -1)

/-- One iteration of the forward loop body (main.cpp lines 447-477) up to
    the publish call: receive into the buffer, then build the message with
    payload pointing at the buffer, payloadlen the raw recvfrom return,
    the configured qos and retained 0, on the configured topic.  The
    return value of recvfrom is never checked before use. -/
def forwardStep (o : AppOptions) (buf : List Nat) (r : RecvResult) :
    List Nat × PublishCall :=
  let (buf2, msgLen) := recvfromModel buf r
  (buf2,
   { topic := o.mqttTopic
     payload := buf2
     payloadlen := msgLen
     qos := o.mqttQosLevel
     retained := 0 })

/-- The bytes the publish hands over when payloadlen is interpreted as a
    length into the buffer (nonnegative lengths; Int.toNat clamps). -/
def publishedBytes (p : PublishCall) : List Nat :=
  p.payload.take p.payloadlen.toNat

/-- The while(true) loop of main over a finite trace of receive events,
    each paired with the return code the subsequent
    MQTTClient_waitForCompletion call yields.  A non-success code only
    selects a log line (main.cpp lines 469-472); the loop body runs
    unconditionally for every event, so the trace is consumed whole. -/
def runLoop (o : AppOptions) (buf : List Nat) :
    List (RecvResult × Int) → List (PublishCall × Int)
  | [] => []
  | (r, rc) :: rest =>
      let s := forwardStep o buf r
      (s.2, rc) :: runLoop o s.1 rest

/-- Numeric config keys, each parsed with std::stoi in parseConfFile. -/
def numericKeys : List String :=
  ["InputUdpPort", "MqttQosLevel", "MqttKeepAliveInterval", "MqttRetryInterval",
   "MqttConnectionTimeout", "MqttSslEnableServerCertAuth", "MqttSslVerify"]

/-- A complete, valid config used by concrete instantiations. -/
def demoOptions : AppOptions :=
  { mqttUrl := "tcp://localhost:1883", mqttTopic := "sensors/1", mqttClientID := "gw1" }

/-- The 2048-byte receive buffer at its initial (arbitrary) contents. -/
def demoBuf : List Nat := List.replicate UDP_BUFFER_SIZE 0

/-- Trace of two datagrams whose first publish fails with code -3. -/
def demoEvsFail : List (RecvResult × Int) := [(.ok [1], -3), (.ok [2], 0)]

/-- The same two datagrams with both publishes succeeding. -/
def demoEvsOk : List (RecvResult × Int) := [(.ok [1], 0), (.ok [2], 0)]

/-- Config file lines with every required field but no MqttUrl line. -/
def noUrlLines : List String := ["MqttTopic sensors/1", "MqttClientID gw1"]

/-- Config file lines with a username and no password. -/
def userNoPwLines : List String :=
  ["MqttUrl tcp://localhost:1883", "MqttTopic sensors/1", "MqttClientID gw1",
   "MqttUsername alice"]

/-- Valid config lines whose MqttQosLevel value is 7, outside {0,1,2}. -/
def qosDemoLines : List String :=
  ["InputUdpPort 9999", "MqttUrl tcp://localhost:1883", "MqttTopic sensors/1",
   "MqttClientID gw1", "MqttQosLevel 7"]

/-- The options qosDemoLines parses to. -/
def qosDemoOptions : AppOptions :=
  { inputUdpPort := 9999, mqttUrl := "tcp://localhost:1883", mqttTopic := "sensors/1",
    mqttClientID := "gw1", mqttQosLevel := 7 }

/-- Config lines with all spec-required fields except InputUdpPort. -/
def noPortLines : List String :=
  ["MqttUrl tcp://localhost:1883", "MqttTopic sensors/1", "MqttClientID gw1"]

/-- A validated config with a password but an empty username. -/
def pwOnlyOptions : AppOptions :=
  { mqttUrl := "tcp://localhost:1883", mqttTopic := "sensors/1", mqttClientID := "gw1",
    mqttPassword := "secret" }

/-- Helper: the issue list a successful parse returns is the validation of
    the parsed options. -/
theorem parse_ok_issues {lines : List String} {issues : List ValidationIssue}
    {o : AppOptions} (hp : parseConfFile lines = .ok (issues, o)) :
    issues = configIssues o := by
  unfold parseConfFile at hp
  cases hP : parseLines {} (lines.map String.toList) 0 with
  | ok o2 =>
      rw [hP] at hp
      simp only [Except.ok.injEq, Prod.mk.injEq] at hp
      obtain ⟨h1, h2⟩ := hp
      rw [← h1, ← h2]
  | error e => rw [hP] at hp; cases hp

/-- Helper: how mainStartup continues after a successful parse. -/
theorem mainStartup_ok {lines : List String} {issues : List ValidationIssue}
    {o : AppOptions} (hp : parseConfFile lines = .ok (issues, o)) :
    mainStartup lines =
      if issues.isEmpty then .enterRuntime o else .exitInvalidConfig := by
  unfold mainStartup
  rw [hp]

/-- Helper: how mainStartup continues after a parse exception. -/
theorem mainStartup_error {lines : List String} {e : ConfError}
    (hp : parseConfFile lines = .error e) :
    mainStartup lines = .exitConfigException := by
  unfold mainStartup
  rw [hp]

/-- Helper: a fired validation check makes startup exit before the socket. -/
theorem startup_invalid_of_mem {lines : List String} {issues : List ValidationIssue}
    {o : AppOptions} (hp : parseConfFile lines = .ok (issues, o))
    {x : ValidationIssue} (hx : x ∈ issues) :
    mainStartup lines = .exitInvalidConfig := by
  rw [mainStartup_ok hp]
  have hne : issues ≠ [] := List.ne_nil_of_mem hx
  simp [List.isEmpty_iff, hne]

/-- C1: a datagram of length at most the 2048-byte buffer capacity received
    by the loop yields exactly one publish call, on the configured topic,
    whose transmitted payload bytes are identical to the datagram, at the
    configured QoS, with retained = 0 (false). -/
theorem c1_forward_publishes_datagram (o : AppOptions) (buf d : List Nat) (rc : Int)
    (h : d.length ≤ UDP_BUFFER_SIZE) :
    runLoop o buf [(RecvResult.ok d, rc)] =
      [({ topic := o.mqttTopic, payload := d ++ buf.drop d.length,
          payloadlen := Int.ofNat d.length, qos := o.mqttQosLevel, retained := 0 }, rc)] ∧
    publishedBytes
      { topic := o.mqttTopic, payload := d ++ buf.drop d.length,
        payloadlen := Int.ofNat d.length, qos := o.mqttQosLevel, retained := 0 } = d := by
  have htake : d.take UDP_BUFFER_SIZE = d := List.take_of_length_le h
  constructor
  · simp [runLoop, forwardStep, recvfromModel, htake]
  · simp only [publishedBytes, Int.toNat_ofNat]
    exact List.take_left d (buf.drop d.length)

/-- Witness for C1 at the datagram 01 02 03 over a zeroed buffer. -/
theorem c1_witness :
    runLoop demoOptions demoBuf [(RecvResult.ok [1, 2, 3], 0)] =
      [({ topic := demoOptions.mqttTopic, payload := [1, 2, 3] ++ demoBuf.drop 3,
          payloadlen := Int.ofNat 3, qos := demoOptions.mqttQosLevel, retained := 0 }, 0)] ∧
    publishedBytes
      { topic := demoOptions.mqttTopic, payload := [1, 2, 3] ++ demoBuf.drop 3,
        payloadlen := Int.ofNat 3, qos := demoOptions.mqttQosLevel, retained := 0 } = [1, 2, 3] :=
  c1_forward_publishes_datagram demoOptions demoBuf [1, 2, 3] 0 (by decide)

/-- C2: the loop outcome does not depend on the publish return codes: over
    two traces with the same receive events, the published messages agree,
    and every event is forwarded (one publish per event), so a failed
    waitForCompletion never terminates the loop or skips the next datagram. -/
theorem c2_publish_failure_nonfatal (o : AppOptions) (buf : List Nat)
    (evs evs2 : List (RecvResult × Int))
    (h : evs.map Prod.fst = evs2.map Prod.fst) :
    (runLoop o buf evs).map Prod.fst = (runLoop o buf evs2).map Prod.fst ∧
    (runLoop o buf evs).length = evs.length := by
  constructor
  · induction evs generalizing buf evs2 with
    | nil =>
        cases evs2 with
        | nil => rfl
        | cons b m => simp at h
    | cons a l ih =>
        cases evs2 with
        | nil => simp at h
        | cons b m =>
            obtain ⟨r, rc⟩ := a
            obtain ⟨r2, rc2⟩ := b
            simp only [List.map_cons, List.cons.injEq] at h
            obtain ⟨h1, h2⟩ := h
            cases h1
            simp only [runLoop, List.map_cons, List.cons.injEq]
            exact ⟨trivial, ih _ _ h2⟩
  · clear h
    induction evs generalizing buf with
    | nil => rfl
    | cons a l ih =>
        obtain ⟨r, rc⟩ := a
        simp only [runLoop, List.length_cons]
        rw [ih]

/-- Witness for C2: a trace whose first publish fails with code -3 forwards
    the same two messages as the all-success trace. -/
theorem c2_witness :
    (runLoop demoOptions demoBuf demoEvsFail).map Prod.fst =
      (runLoop demoOptions demoBuf demoEvsOk).map Prod.fst ∧
    (runLoop demoOptions demoBuf demoEvsFail).length = demoEvsFail.length :=
  c2_publish_failure_nonfatal demoOptions demoBuf demoEvsFail demoEvsOk (by decide)

/-- C9: the loop never checks the recvfrom return value: a failed receive
    (return -1) still builds a message whose payloadlen field is -1 and
    issues the publish call, and the loop continues with the trace. -/
theorem c9_recv_error_unchecked (o : AppOptions) (buf : List Nat) (rc : Int)
    (evs : List (RecvResult × Int)) :
    runLoop o buf ((RecvResult.err, rc) :: evs) =
      ({ topic := o.mqttTopic, payload := buf, payloadlen := -1,
         qos := o.mqttQosLevel, retained := 0 }, rc) :: runLoop o buf evs := by
  simp [runLoop, forwardStep, recvfromModel]

/-- C3: when the parsed configuration has an empty MqttUrl, MqttTopic or
    MqttClientID, the corresponding missing-required-field check fires,
    naming the field, and main exits nonzero before the socket call. -/
theorem c3_missing_required_field (lines : List String) (issues : List ValidationIssue)
    (o : AppOptions) (f : String) (hp : parseConfFile lines = .ok (issues, o))
    (hf : (f = "MqttUrl" ∧ o.mqttUrl = "") ∨ (f = "MqttTopic" ∧ o.mqttTopic = "") ∨
          (f = "MqttClientID" ∧ o.mqttClientID = "")) :
    ValidationIssue.missingRequiredField f ∈ issues ∧
    mainStartup lines = .exitInvalidConfig := by
  have hmem : ValidationIssue.missingRequiredField f ∈ issues := by
    rw [parse_ok_issues hp]
    rcases hf with ⟨hfe, he⟩ | ⟨hfe, he⟩ | ⟨hfe, he⟩ <;> subst hfe <;>
      simp [configIssues, he]
  exact ⟨hmem, startup_invalid_of_mem hp hmem⟩

/-- Witness for C3 on a config file with no MqttUrl line. -/
theorem c3_witness :
    ValidationIssue.missingRequiredField ("MqttUrl") ∈
      [ValidationIssue.missingRequiredField ("MqttUrl")] ∧
    mainStartup noUrlLines = .exitInvalidConfig :=
  c3_missing_required_field noUrlLines [ValidationIssue.missingRequiredField ("MqttUrl")]
    { mqttTopic := "sensors/1", mqttClientID := "gw1" } "MqttUrl"
    (by decide) (Or.inl ⟨rfl, rfl⟩)

/-- C4: when the parsed configuration has a nonempty username and an empty
    password, the inconsistent-credentials check fires and main exits
    nonzero before the socket call. -/
theorem c4_inconsistent_credentials (lines : List String)
    (issues : List ValidationIssue) (o : AppOptions)
    (hp : parseConfFile lines = .ok (issues, o))
    (hu : o.mqttUsername ≠ "") (hw : o.mqttPassword = "") :
    ValidationIssue.inconsistentCredentials ∈ issues ∧
    mainStartup lines = .exitInvalidConfig := by
  have hmem : ValidationIssue.inconsistentCredentials ∈ issues := by
    rw [parse_ok_issues hp]
    simp [configIssues, hu, hw]
  exact ⟨hmem, startup_invalid_of_mem hp hmem⟩

/-- Witness for C4 on a config file with MqttUsername alice and no
    MqttPassword line. -/
theorem c4_witness :
    ValidationIssue.inconsistentCredentials ∈ [ValidationIssue.inconsistentCredentials] ∧
    mainStartup userNoPwLines = .exitInvalidConfig :=
  c4_inconsistent_credentials userNoPwLines [ValidationIssue.inconsistentCredentials]
    { mqttUrl := "tcp://localhost:1883", mqttTopic := "sensors/1", mqttClientID := "gw1",
      mqttUsername := "alice" }
    (by decide) (by decide) rfl

/-- C5 counterexample: a non-integer value for InputUdpPort at line 1 and a
    non-integer value for MqttQosLevel at line 2 raise the identical error
    value, the bare std::invalid_argument of stoi, so the error raised for
    a malformed numeric field identifies neither the offending key nor the
    line number, contrary to the claim. -/
theorem c5_counterexample :
    parseConfFile ["InputUdpPort abc"] = .error .invalidArgument ∧
    parseConfFile ["MqttUrl u", "MqttQosLevel zz"] = .error .invalidArgument := by
  constructor <;> rfl

/-- C5 amended: a numeric field whose value does not parse as an integer
    makes parseConfFile fail with the bare invalid-argument error, which is
    one constant for every key, value and line, and any parse error makes
    main exit nonzero before the socket call. -/
theorem c5_malformed_numeric_generic_error :
    (∀ (k v : String) (o : AppOptions), k ∈ numericKeys → stoiOpt v = none →
      interpretLine k v o = .error .invalidArgument) ∧
    (∀ (lines : List String) (e : ConfError), parseConfFile lines = .error e →
      mainStartup lines = .exitConfigException) := by
  constructor
  · intro k v o hk hv
    simp only [numericKeys, List.mem_cons, List.not_mem_nil, or_false] at hk
    rcases hk with rfl | rfl | rfl | rfl | rfl | rfl | rfl <;>
      simp [interpretLine, hv]
  · intro lines e hp
    exact mainStartup_error hp

/-- Witness for the amended C5 at key MqttQosLevel, value zz, and at the
    file with a malformed InputUdpPort. -/
theorem c5_witness :
    interpretLine ("MqttQosLevel") ("zz") {} = .error .invalidArgument ∧
    mainStartup ["InputUdpPort abc"] = .exitConfigException :=
  ⟨c5_malformed_numeric_generic_error.1 ("MqttQosLevel") ("zz") {} (by decide) (by decide),
   c5_malformed_numeric_generic_error.2 ["InputUdpPort abc"] .invalidArgument (by decide)⟩

/-- C6 counterexample: the file qosDemoLines sets MqttQosLevel to 7, outside
    {0,1,2}, yet startup reaches the runtime components and hands the loop
    QoS 7, contrary to the claim that such input cannot reach the loop. -/
theorem c6_counterexample :
    reachesRuntime (mainStartup qosDemoLines) = true ∧
    outcomeQos (mainStartup qosDemoLines) = some 7 := by
  constructor <;> rfl

/-- C6 amended: validation never constrains the QoS field, so any parsed
    configuration with an empty issue list reaches the runtime with its
    QoS unchanged, whatever integer the file supplied; the validation
    outcome itself is independent of the QoS value. -/
theorem c6_qos_not_validated (lines : List String) (issues : List ValidationIssue)
    (o : AppOptions) (hp : parseConfFile lines = .ok (issues, o)) (hv : issues = []) :
    mainStartup lines = .enterRuntime o ∧
    outcomeQos (mainStartup lines) = some o.mqttQosLevel ∧
    (∀ q : Int, configIssues { o with mqttQosLevel := q } = configIssues o) := by
  have hrun : mainStartup lines = .enterRuntime o := by
    rw [mainStartup_ok hp, hv]
    rfl
  refine ⟨hrun, by rw [hrun]; rfl, fun q => rfl⟩

/-- Witness for the amended C6 on the QoS-7 file. -/
theorem c6_witness :
    mainStartup qosDemoLines = .enterRuntime qosDemoOptions ∧
    outcomeQos (mainStartup qosDemoLines) = some qosDemoOptions.mqttQosLevel ∧
    (∀ q : Int, configIssues { qosDemoOptions with mqttQosLevel := q } =
      configIssues qosDemoOptions) :=
  c6_qos_not_validated qosDemoLines [] qosDemoOptions (by decide) rfl

/-- C7 counterexample: the file noPortLines omits InputUdpPort entirely,
    yet validation does not reject it: startup reaches the runtime and the
    bind step with the default port 0, contrary to the claim. -/
theorem c7_counterexample :
    reachesRuntime (mainStartup noPortLines) = true ∧
    outcomePort (mainStartup noPortLines) = some 0 := by
  constructor <;> rfl

/-- C7 amended: InputUdpPort is not a validated field: the validation
    outcome is independent of the port value, and a file omitting
    InputUdpPort passes validation and reaches the bind step with the
    default port 0. -/
theorem c7_port_not_required :
    (∀ (o : AppOptions) (p : Int),
      configIssues { o with inputUdpPort := p } = configIssues o) ∧
    mainStartup noPortLines =
      .enterRuntime { mqttUrl := "tcp://localhost:1883", mqttTopic := "sensors/1",
                      mqttClientID := "gw1" } := by
  exact ⟨fun o p => rfl, by rfl⟩

/-- C8: the TLS version mapping of the parser sends the strings 1.0, 1.1
    and 1.2 all to the TLS 1.0 constant, which differs from the TLS 1.1 and
    TLS 1.2 constants, sends default to the library default constant, and
    rejects every other value with the invalid-enum throw. -/
theorem c8_ssl_version_mapping :
    parseSslVersion ("1.1") = some MQTT_SSL_VERSION_TLS_1_0 ∧
    parseSslVersion ("1.2") = some MQTT_SSL_VERSION_TLS_1_0 ∧
    parseSslVersion ("1.0") = some MQTT_SSL_VERSION_TLS_1_0 ∧
    parseSslVersion ("default") = some MQTT_SSL_VERSION_DEFAULT ∧
    MQTT_SSL_VERSION_TLS_1_0 ≠ MQTT_SSL_VERSION_TLS_1_1 ∧
    MQTT_SSL_VERSION_TLS_1_0 ≠ MQTT_SSL_VERSION_TLS_1_2 ∧
    (∀ (v : String) (o : AppOptions), v ≠ "default" → v ≠ "1.0" → v ≠ "1.1" → v ≠ "1.2" →
      interpretLine ("MqttSslVersion") v o = .error (.invalidEnumValue ("MqttSslVersion"))) := by
  refine ⟨rfl, rfl, rfl, rfl, by decide, by decide, ?_⟩
  intro v o h1 h2 h3 h4
  simp [interpretLine, parseSslVersion, h1, h2, h3, h4]

/-- Witness for C8 at the unrecognized TLS version 1.3. -/
theorem c8_witness :
    interpretLine ("MqttSslVersion") ("1.3") {} = .error (.invalidEnumValue ("MqttSslVersion")) :=
  c8_ssl_version_mapping.2.2.2.2.2.2 ("1.3") {} (by decide) (by decide) (by decide) (by decide)

/-- C10: for a configuration with an empty username, the connect options
    carry neither a username nor a password, even when a password was
    supplied, and the credentials check does not fire, so a password
    without a username passes validation and is silently ignored. -/
theorem c10_password_without_username (o : AppOptions) (h : o.mqttUsername = "") :
    (mkConnOpts o).username = none ∧ (mkConnOpts o).password = none ∧
    ValidationIssue.inconsistentCredentials ∉ configIssues o := by
  refine ⟨by simp [mkConnOpts, h], by simp [mkConnOpts, h], ?_⟩
  simp only [configIssues, h, List.mem_append]
  intro hc
  rcases hc with (hc | hc) | hc <;> split at hc <;> simp_all

/-- Witness for C10 at a validated config with password secret and empty
    username. -/
theorem c10_witness :
    (mkConnOpts pwOnlyOptions).username = none ∧
    (mkConnOpts pwOnlyOptions).password = none ∧
    ValidationIssue.inconsistentCredentials ∉ configIssues pwOnlyOptions :=
  c10_password_without_username pwOnlyOptions rfl

end UdpMqttGw

